import Mathlib

/-!
# Verification of the schemeit evaluator (src/env.rs, src/eval.rs, src/parse.rs)

A shallow embedding of the schemeit interpreter: a tree-walking evaluator for
a small Scheme-like language.  The embedding follows the Rust source:

* `Operation` and `SExpr` mirror the enums `Operation` and `SymbolicExpression`
  of `parse.rs` (the evaluator consumes the parsed tree directly; the tokenizer
  and parser are external per the specification, so claim inputs are written as
  syntax trees).
* The `Rc<RefCell<Frame>>` chain of `env.rs` is modelled by a store (`Store`)
  of frames addressed by allocation index; an `Env` handle is the index of its
  current frame.  Sharing of frames between handles (the closure semantics)
  is then literal: two handles holding the same index see the same frame.
* `i128` arithmetic carries the overflow checks of a debug build (Rust
  arithmetic panics on overflow in debug, which is how the crate is run and
  tested); the explicit `i128` bounds appear in `checkedI128`.
* `f64` payloads are modelled by `F64`, an exact fraction type defined below
  (its arithmetic is kernel-computable).  Every floating-point computation
  exercised by the claims (sums of small integers, `4.0 / 2.0`, the account
  balances 100.0, 80.0, 60.0) is exact in `f64`, so rational arithmetic agrees
  with the source bit-for-bit on those inputs.  Transcendental operations
  (`exp`, `powf`, `powi` on floats) are outside the rational model and are
  mapped to a dedicated `unmodelledFloat` outcome; no claim touches them.
* Rust panics (`panic!`, `unwrap`, `expect`, debug overflow) are modelled by
  the `RtErr.panicked` outcome of `eval`: a panic aborts the interpreter
  process, it is not a recoverable error value.
-/

/-- The fixed operation set, from `parse.rs` (`enum Operation`).  `if` and
`let` are Lean keywords, so those two constructors are named `ifOp` and
`letOp`. -/
inductive Operation where
  | add | substract | divide | multiply | pow | exp
  | car | cdr | cons | list
  | begin | module | cond | ifOp
  | eq | smaller | greater | smallerOrEqual | greaterOrEqual
  | define | set | lambda | quote | letOp
  deriving DecidableEq, Repr


/-- The model of `f64` payloads: an exact fraction, kept normalized
(`den > 0`, `gcd num den = 1`) by `f64norm`.  Every `f64` value and
operation exercised by the claims is exact in double precision, so exact
fractions agree with the source there.  IEEE special values only arise from
division by zero, which no claim performs: `f64norm n 0` collapses to
`⟨1, 0⟩`/`⟨-1, 0⟩`/`⟨0, 0⟩` stand-ins for `inf`/`-inf`/`NaN` whose comparison
behaviour is NOT IEEE-faithful. -/
structure F64 where
  num : Int
  den : Int
  deriving DecidableEq, Repr

/-- Normalize a fraction: positive denominator, coprime components. -/
def f64norm (n d : Int) : F64 :=
  let s : Int := if d < 0 then -1 else 1
  let n' := s * n
  let d' := s * d
  let g : Int := (Int.gcd n' d' : Int)
  if g = 0 then ⟨0, 0⟩ else ⟨n' / g, d' / g⟩

def f64Add (a b : F64) : F64 := f64norm (a.num * b.den + b.num * a.den) (a.den * b.den)

def f64Sub (a b : F64) : F64 := f64norm (a.num * b.den - b.num * a.den) (a.den * b.den)

def f64Mul (a b : F64) : F64 := f64norm (a.num * b.num) (a.den * b.den)

def f64Div (a b : F64) : F64 := f64norm (a.num * b.den) (a.den * b.num)

/-- `f64` equality, as value equality of fractions (cross-multiplication). -/
def f64Eq (a b : F64) : Bool := a.num * b.den == b.num * a.den

/-- `f64` strict order (correct for the finite values all claims live in). -/
def f64Lt (a b : F64) : Bool := decide (a.num * b.den < b.num * a.den)

/-- `f64` non-strict order. -/
def f64Le (a b : F64) : Bool := decide (a.num * b.den ≤ b.num * a.den)

/-- `SymbolicExpression` from `parse.rs`: parsed syntax and runtime values are
the same type.  `float` carries an `F64` standing for the source's `f64`
(see the header comment); `int` carries an unbounded `Int` standing for `i128`
(the `i128` range checks live in the arithmetic operations, where a debug
build checks them).  A `lambda`'s captured `Env` is the index of its current
frame in the store. -/
inductive SExpr where
  | str (s : String)
  | symbol (s : String)
  | float (q : F64)
  | int (n : Int)
  | bool (b : Bool)
  | cons (head tail : SExpr)
  | nil
  | expression (forms : List SExpr)
  | lambda (parameters : List String) (envIdx : Nat) (body : SExpr)
  | operation (op : Operation)

/-- `InterpreterError` from `error.rs`.  Only `variableNotFound` is ever
constructed by the code under `src/` (by `Frame::set_symbol` and
`Env::find_symbol`); the remaining variants are declared by `error.rs` and
kept for faithfulness. -/
inductive InterpreterError where
  | variableNotFound (name : String)
  | syntaxError (e : SExpr)
  | runtimeError (msg : String)
  | valueError (msg : String)
  | argumentError (msg : String)

/-- Outcomes of running the evaluator that are not ordinary values.
`eval` in `eval.rs`/`main.rs` returns a plain `SymbolicExpression` and signals
every failure by panicking, so:

* `panicked msg` models a Rust panic (`panic!`, `unwrap`/`expect` on
  `None`/`Err`, debug-build arithmetic overflow) — the process aborts.
* `unhandledOp` models dispatching `Operation::Let`: `parse.rs` reserves
  `let` and defines the `Let` tag, but the `match` in `eval_operation`
  (eval.rs) has no `Let` arm, so the match is non-exhaustive and the module
  does not compile; the Lean model must be total, so this tag gets a
  distinguished outcome.
* `unmodelledFloat` marks the transcendental `f64` operations (`exp`,
  `powf`, float `powi`) that the rational model does not represent.
* `outOfFuel` is an artifact of the fuel-indexed recursion; every claim
  program runs far below the fuel bound. -/
inductive RtErr where
  | panicked (msg : String)
  | unhandledOp
  | unmodelledFloat
  | outOfFuel
  deriving DecidableEq, Repr

/-- `Frame` from `env.rs`: a binding table plus an optional link to the outer
frame.  The `HashMap<String, SymbolicExpression>` is modelled by an
association list with insert-or-overwrite semantics (only lookup is
observable).  The outer link is a store index. -/
structure Frame where
  bindings : List (String × SExpr)
  outer : Option Nat

/-- The heap of frames.  `Rc<RefCell<Frame>>` allocation becomes appending a
frame to the store; an `Env` handle (`current_frame`) is an index into it.
Frames are never removed (dropping an `Rc` is unobservable); `pop_frame`
merely moves a handle to the outer index. -/
abbrev Store := List Frame

/-- `Env::new()`: a single root frame with no outer link. -/
def st0 : Store := [⟨[], none⟩]

/-- HashMap insert: overwrite the binding if the key is present, otherwise add
it. -/
def bindingsInsert (name : String) (v : SExpr) : List (String × SExpr) → List (String × SExpr)
  | [] => [(name, v)]
  | (k, w) :: rest =>
    if k = name then (k, v) :: rest else (k, w) :: bindingsInsert name v rest

/-- HashMap lookup. -/
def bindingsFind (name : String) : List (String × SExpr) → Option SExpr
  | [] => none
  | (k, w) :: rest => if k = name then some w else bindingsFind name rest

/-- `Frame::define_symbol`: insert/overwrite in this frame only. -/
def frameDefine (fr : Frame) (name : String) (v : SExpr) : Frame :=
  { fr with bindings := bindingsInsert name v fr.bindings }

/-- `Env::add_frame` / `Env::get_lambda_env` allocation step: create a frame
whose outer link is `outer` and return the extended store together with the
new frame's index. -/
def allocFrame (st : Store) (outer : Option Nat) : Store × Nat :=
  (st ++ [⟨[], outer⟩], st.length)

/-- `Env::define_symbol`: insert/overwrite in the current frame.  The
`none` branch (dangling handle) cannot arise for stores built by the
evaluator. -/
def envDefine (st : Store) (idx : Nat) (name : String) (v : SExpr) : Store :=
  match st[idx]? with
  | some fr => st.set idx (frameDefine fr name v)
  | none => st

/-- `Frame::find_symbol`: look in this frame's bindings, else recurse into the
outer frame.  The outer chain of any store built by the evaluator is strictly
decreasing in allocation order, hence acyclic; the fuel argument makes the
recursion structural, and callers pass `st.length + 1`, which the chain length
never exceeds. -/
def frameFind (fuel : Nat) (st : Store) (idx : Nat) (name : String) : Option SExpr :=
  match fuel with
  | 0 => none
  | fuel + 1 =>
    match st[idx]? with
    | none => none
    | some fr =>
      match bindingsFind name fr.bindings with
      | some v => some v
      | none =>
        match fr.outer with
        | none => none
        | some j => frameFind fuel st j name

/-- `Env::find_symbol`: chain lookup, `VariableNotFound` when no frame binds
the name. -/
def envFindSymbol (st : Store) (idx : Nat) (name : String) : Except InterpreterError SExpr :=
  match frameFind (st.length + 1) st idx name with
  | some v => .ok v
  | none => .error (.variableNotFound name)

/-- `Frame::set_symbol`: overwrite the binding in the nearest frame of the
chain that defines `name`; `VariableNotFound` when none does.  Fuel as in
`frameFind`; the fuel-exhaustion and dangling-index branches are model
artifacts that no evaluator-built store reaches. -/
def frameSetSym (fuel : Nat) (st : Store) (idx : Nat) (name : String) (v : SExpr) :
    Except InterpreterError Store :=
  match fuel with
  | 0 => .error (.runtimeError "frame-chain fuel exhausted (model artifact)")
  | fuel + 1 =>
    match st[idx]? with
    | none => .error (.runtimeError "dangling frame index (model artifact)")
    | some fr =>
      match bindingsFind name fr.bindings with
      | some _ => .ok (st.set idx (frameDefine fr name v))
      | none =>
        match fr.outer with
        | some j => frameSetSym fuel st j name v
        | none => .error (.variableNotFound name)

/-- `Env::set_symbol`. -/
def envSetSymbol (st : Store) (idx : Nat) (name : String) (v : SExpr) :
    Except InterpreterError Store :=
  frameSetSym (st.length + 1) st idx name v

/-- `i128::MIN`, written out (equals `-(2^127)`). -/
def i128Min : Int := -170141183460469231731687303715884105728

/-- `i128::MAX`, written out (equals `2^127 - 1`). -/
def i128Max : Int := 170141183460469231731687303715884105727

/-- Debug-build `i128` arithmetic: the mathematical result when it fits in
`i128`, a panic (with Rust's overflow message) otherwise. -/
def checkedI128 (msg : String) (n : Int) : Except RtErr Int :=
  if i128Min ≤ n ∧ n ≤ i128Max then .ok n else .error (.panicked msg)

/-- The `acc * base` steps of `i128::pow`, overflow-checked as in a debug
build. -/
def checkedMul (a b : Int) : Except RtErr Int :=
  checkedI128 "attempt to multiply with overflow" (a * b)

/-- `value as u32` for an `i128` value: truncation to the low 32 bits
(Rust `as` casts wrap). -/
def i128AsU32 (n : Int) : Nat :=
  (n % 4294967296).toNat

/-- The loop of `i128::pow` (exponentiation by squaring over a `u32`
exponent, debug-checked multiplications).  The fuel only bounds the number
of halvings of the exponent; 64 covers every `u32` exponent, so the
`outOfFuel` branch is unreachable from `i128Pow`. -/
def i128PowLoop : Nat → Int → Int → Nat → Except RtErr Int
  | 0, _, _, _ => .error .outOfFuel
  | fuel + 1, base, acc, exp =>
    if exp % 2 = 1 then
      match checkedMul acc base with
      | .error e => .error e
      | .ok acc' =>
        if exp = 1 then .ok acc'
        else
          match checkedMul base base with
          | .error e => .error e
          | .ok base' => i128PowLoop fuel base' acc' (exp / 2)
    else
      match checkedMul base base with
      | .error e => .error e
      | .ok base' => i128PowLoop fuel base' acc (exp / 2)

/-- `i128::pow` (debug build): `1` on exponent `0`, else the checked
square-and-multiply loop. -/
def i128Pow (b : Int) (exp : Nat) : Except RtErr Int :=
  if exp = 0 then .ok 1 else i128PowLoop 64 b 1 exp

/-- `value as f64` for an `i128` value, in the fraction model of `f64`
(exact for every value the claims exercise; the source cast rounds only
beyond 2^53). -/
def i128ToF64 (n : Int) : F64 := ⟨n, 1⟩

/-- The reduce closure of `Operation::Add` (`eval.rs`): `f64` promotion,
`Int + Int` stays `Int` (debug-checked), any non-numeric operand panics
with "alarm reduce". -/
def addNum (acc elem : SExpr) : Except RtErr SExpr :=
  match acc, elem with
  | .float a, .float b => .ok (.float (f64Add a b))
  | .float a, .int b => .ok (.float (f64Add a (i128ToF64 b)))
  | .int a, .float b => .ok (.float (f64Add (i128ToF64 a) b))
  | .int a, .int b => (checkedI128 "attempt to add with overflow" (a + b)).map .int
  | _, _ => .error (.panicked "alarm reduce")

/-- The reduce closure of `Operation::Substract`. -/
def subNum (acc elem : SExpr) : Except RtErr SExpr :=
  match acc, elem with
  | .float a, .float b => .ok (.float (f64Sub a b))
  | .float a, .int b => .ok (.float (f64Sub a (i128ToF64 b)))
  | .int a, .float b => .ok (.float (f64Sub (i128ToF64 a) b))
  | .int a, .int b => (checkedI128 "attempt to subtract with overflow" (a - b)).map .int
  | _, _ => .error (.panicked "alarm reduce")

/-- The reduce closure of `Operation::Multiply`. -/
def mulNum (acc elem : SExpr) : Except RtErr SExpr :=
  match acc, elem with
  | .float a, .float b => .ok (.float (f64Mul a b))
  | .float a, .int b => .ok (.float (f64Mul a (i128ToF64 b)))
  | .int a, .float b => .ok (.float (f64Mul (i128ToF64 a) b))
  | .int a, .int b => (checkedI128 "attempt to multiply with overflow" (a * b)).map .int
  | _, _ => .error (.panicked "alarm reduce")

/-- The reduce closure of `Operation::Divide`: every numeric case produces a
`Float`; `Int / Int` widens both sides to `f64` first (true division, no
integer division, no overflow check). -/
def divNum (acc elem : SExpr) : Except RtErr SExpr :=
  match acc, elem with
  | .float a, .float b => .ok (.float (f64Div a b))
  | .float a, .int b => .ok (.float (f64Div a (i128ToF64 b)))
  | .int a, .float b => .ok (.float (f64Div (i128ToF64 a) b))
  | .int a, .int b => .ok (.float (f64Div (i128ToF64 a) (i128ToF64 b)))
  | _, _ => .error (.panicked "alarm reduce")

/-- The comparison closure of `Operation::Eq` (`eval.rs`): per-kind equality
with numeric cross-promotion, `Nil = Nil`, everything else (cons, lambdas,
mixed kinds) `false`. -/
def cmpEq (first each : SExpr) : Bool :=
  match first, each with
  | .float a, .float b => f64Eq a b
  | .float a, .int b => f64Eq a (i128ToF64 b)
  | .int a, .float b => f64Eq (i128ToF64 a) b
  | .int a, .int b => decide (a = b)
  | .str a, .str b => decide (a = b)
  | .bool a, .bool b => a == b
  | .nil, .nil => true
  | _, _ => false

/-- The comparison closure of `Operation::Smaller`: numeric cross-promotion,
string and bool orderings (Rust: `false < true`), `false` on any other pair
of kinds. -/
def cmpSmaller (first each : SExpr) : Bool :=
  match first, each with
  | .float a, .float b => f64Lt a b
  | .float a, .int b => f64Lt a (i128ToF64 b)
  | .int a, .float b => f64Lt (i128ToF64 a) b
  | .int a, .int b => decide (a < b)
  | .str a, .str b => decide (a < b)
  | .bool a, .bool b => !a && b
  | _, _ => false

/-- The comparison closure of `Operation::Greater`. -/
def cmpGreater (first each : SExpr) : Bool :=
  match first, each with
  | .float a, .float b => f64Lt b a
  | .float a, .int b => f64Lt (i128ToF64 b) a
  | .int a, .float b => f64Lt b (i128ToF64 a)
  | .int a, .int b => decide (b < a)
  | .str a, .str b => decide (b < a)
  | .bool a, .bool b => a && !b
  | _, _ => false

/-- The comparison closure of `Operation::GreaterOrEqual`. -/
def cmpGreaterOrEqual (first each : SExpr) : Bool :=
  match first, each with
  | .float a, .float b => f64Le b a
  | .float a, .int b => f64Le (i128ToF64 b) a
  | .int a, .float b => f64Le b (i128ToF64 a)
  | .int a, .int b => decide (b ≤ a)
  | .str a, .str b => decide (¬a < b)
  | .bool a, .bool b => a || !b
  | _, _ => false

/-- The comparison closure of `Operation::SmallerOrEqual`. -/
def cmpSmallerOrEqual (first each : SExpr) : Bool :=
  match first, each with
  | .float a, .float b => f64Le a b
  | .float a, .int b => f64Le a (i128ToF64 b)
  | .int a, .float b => f64Le (i128ToF64 a) b
  | .int a, .int b => decide (a ≤ b)
  | .str a, .str b => decide (¬b < a)
  | .bool a, .bool b => b || !a
  | _, _ => false

/-- `Option::unwrap()` on `None` (e.g. an iterator exhausted too early). -/
def unwrapPanic : RtErr := .panicked "called Option::unwrap on a None value"

/-- `Lambda` parameter-list extraction (`eval.rs`, `Operation::Lambda` arm):
every element of the parameter form must be a `Symbol`, else a panic. -/
def extractParams : List SExpr → Except RtErr (List String)
  | [] => .ok []
  | .symbol n :: rest => (extractParams rest).map (n :: ·)
  | _ :: _ => .error (.panicked "non symbol arg in lambda")

set_option maxHeartbeats 2000000

mutual

/-- `eval` (`eval.rs`): symbols are looked up in the environment — with the
`Result` immediately `expect`ed, so an unbound symbol PANICS rather than
returning the `VariableNotFound` that `Env::find_symbol` produced; expressions
dispatch; every other node evaluates to itself.  All functions of this block
take the fuel first and spend one unit per call, which keeps the mutual
recursion structural; claim programs stay far below the bound that `evalTop`
supplies. -/
def eval : Nat → Store → Nat → SExpr → Except RtErr (SExpr × Store)
  | 0, _, _, _ => .error .outOfFuel
  | fuel + 1, st, env, e =>
    match e with
    | .symbol name =>
      match envFindSymbol st env name with
      | .ok v => .ok (v, st)
      | .error _ => .error (.panicked ("could not find symbol " ++ name))
    | .expression forms => evalExpression fuel st env forms
    | v => .ok (v, st)

termination_by structural fuel => fuel

/-- `eval_expression`: evaluate the head; an `Operation` head dispatches to
`eval_operation`, a `Lambda` head applies, anything else panics.  An empty
expression panics on `unwrap`. -/
def evalExpression : Nat → Store → Nat → List SExpr → Except RtErr (SExpr × Store)
  | 0, _, _, _ => .error .outOfFuel
  | fuel + 1, st, env, forms =>
    match forms with
    | [] => .error unwrapPanic
    | head :: rest =>
      match eval fuel st env head with
      | .error e => .error e
      | .ok (first, st') =>
        match first with
        | .operation op => evalOperation fuel st' env op rest
        | .lambda ps lenv body => evalLambda fuel st' env lenv ps body rest
        | _ => .error (.panicked "invalid first argument in expression")

termination_by structural fuel => fuel

/-- `eval_operation`: one arm per `Operation` tag, following `eval.rs`.
`Operation::Let` has no arm in the source (the match is non-exhaustive and
the module does not compile); the model maps it to `unhandledOp`. -/
def evalOperation : Nat → Store → Nat → Operation → List SExpr → Except RtErr (SExpr × Store)
  | 0, _, _, _, _ => .error .outOfFuel
  | fuel + 1, st, env, op, args =>
    match op with
    | .add =>
      match args with
      | [] => .error unwrapPanic
      | a :: rest =>
        match eval fuel st env a with
        | .error e => .error e
        | .ok (v, st') => arithFold fuel st' env addNum v rest
    | .substract =>
      match args with
      | [] => .error unwrapPanic
      | a :: rest =>
        match eval fuel st env a with
        | .error e => .error e
        | .ok (v, st') => arithFold fuel st' env subNum v rest
    | .multiply =>
      match args with
      | [] => .error unwrapPanic
      | a :: rest =>
        match eval fuel st env a with
        | .error e => .error e
        | .ok (v, st') => arithFold fuel st' env mulNum v rest
    | .divide =>
      match args with
      | [] => .error unwrapPanic
      | a :: rest =>
        match eval fuel st env a with
        | .error e => .error e
        | .ok (v, st') => arithFold fuel st' env divNum v rest
    | .exp =>
      match args with
      | [] => .error unwrapPanic
      | a :: _ =>
        match eval fuel st env a with
        | .error e => .error e
        | .ok (v, _) =>
          match v with
          | .float _ => .error .unmodelledFloat
          | .int _ => .error .unmodelledFloat
          | _ => .error (.panicked "exp on non-numeric value")
    | .pow =>
      match args with
      | a :: b :: _ =>
        match eval fuel st env a with
        | .error e => .error e
        | .ok (v1, st1) =>
          match eval fuel st1 env b with
          | .error e => .error e
          | .ok (v2, st2) =>
            match v1, v2 with
            | .float _, .float _ => .error .unmodelledFloat
            | .float _, .int _ => .error .unmodelledFloat
            | .int _, .float _ => .error .unmodelledFloat
            | .int m, .int n =>
              match i128Pow m (i128AsU32 n) with
              | .error e => .error e
              | .ok r => .ok (.int r, st2)
            | _, _ => .error (.panicked "alarm pow")
      | _ => .error unwrapPanic
    | .begin =>
      -- env.add_frame(); evaluate all forms; env.pop_frame() restores the
      -- handle to `env` (the store keeps the frame; dropping an Rc is
      -- unobservable).  An empty body is `last()` of an empty iterator =
      -- `None`, and the source unwraps it: panic.
      match allocFrame st (some env) with
      | (st1, inner) =>
        match args with
        | [] => .error unwrapPanic
        | a :: rest => evalLast fuel st1 inner a rest
    | .module =>
      match evalDiscard fuel st env args with
      | .error e => .error e
      | .ok st' => .ok (.nil, st')
    | .cons =>
      match args with
      | a :: b :: _ =>
        match eval fuel st env a with
        | .error e => .error e
        | .ok (h, st1) =>
          match eval fuel st1 env b with
          | .error e => .error e
          | .ok (t, st2) => .ok (.cons h t, st2)
      | _ => .error unwrapPanic
    | .list => evalListR fuel st env args
    | .car =>
      match args with
      | [] => .error unwrapPanic
      | a :: _ =>
        match eval fuel st env a with
        | .error e => .error e
        | .ok (v, st1) =>
          match v with
          | .cons h _ => .ok (h, st1)
          | _ => .error (.panicked "car on non cons type")
    | .cdr =>
      match args with
      | [] => .error unwrapPanic
      | a :: _ =>
        match eval fuel st env a with
        | .error e => .error e
        | .ok (v, st1) =>
          match v with
          | .cons _ t => .ok (t, st1)
          | _ => .error (.panicked "car on non cons type")
    | .eq => compareOp fuel st env cmpEq args
    | .smaller => compareOp fuel st env cmpSmaller args
    | .greater => compareOp fuel st env cmpGreater args
    | .smallerOrEqual => compareOp fuel st env cmpSmallerOrEqual args
    | .greaterOrEqual => compareOp fuel st env cmpGreaterOrEqual args
    | .ifOp =>
      match args with
      | [] => .error unwrapPanic
      | p :: rest =>
        match eval fuel st env p with
        | .error e => .error e
        | .ok (pv, st1) =>
          match pv with
          | .bool true =>
            match rest with
            | t :: _ => eval fuel st1 env t
            | [] => .error unwrapPanic
          | .bool false =>
            match rest with
            | _ :: f :: _ => eval fuel st1 env f
            | _ => .error unwrapPanic
          | _ => .error (.panicked "predicate must evaluate to boolean")
    | .cond => condLoop fuel st env args
    | .quote =>
      match args with
      | a :: _ => .ok (a, st)
      | [] => .error (.panicked "Nothing to quote")
    | .define =>
      match args with
      | .symbol name :: rest =>
        match rest with
        | e :: _ =>
          match eval fuel st env e with
          | .error err => .error err
          | .ok (v, st') => .ok (.nil, envDefine st' env name v)
        | [] => .error unwrapPanic
      | _ => .error (.panicked "Invalid args to define")
    | .set =>
      match args with
      | .symbol name :: rest =>
        match rest with
        | e :: _ =>
          match eval fuel st env e with
          | .error err => .error err
          | .ok (v, st') =>
            -- `env.set_symbol(name, value);` — the Result is DROPPED by the
            -- source: on VariableNotFound nothing happens and Nil is still
            -- returned.
            match envSetSymbol st' env name v with
            | .ok st2 => .ok (.nil, st2)
            | .error _ => .ok (.nil, st')
        | [] => .error unwrapPanic
      | _ => .error (.panicked "Invalid args to set!")
    | .lambda =>
      match args with
      | [] => .error unwrapPanic
      | pform :: rest =>
        match pform with
        | .expression vals =>
          match extractParams vals with
          | .error e => .error e
          | .ok names =>
            match rest with
            | body :: _ =>
              -- get_lambda_env(): a fresh child frame of the current frame,
              -- wrapped in a new handle and stored in the closure.
              match allocFrame st (some env) with
              | (st1, idx) => .ok (.lambda names idx body, st1)
            | [] => .error unwrapPanic
        | _ => .error (.panicked "invalid arg list for lambda")
    | .letOp => .error .unhandledOp

termination_by structural fuel => fuel

/-- `eval_lambda`: push a parameter frame onto the closure's captured
environment, bind parameters to arguments evaluated in the CALLER's
environment, evaluate the body in the new frame, pop it (handle-only). -/
def evalLambda : Nat → Store → Nat → Nat → List String → SExpr → List SExpr →
    Except RtErr (SExpr × Store)
  | 0, _, _, _, _, _, _ => .error .outOfFuel
  | fuel + 1, st, callerEnv, lambdaEnv, params, body, argExprs =>
    match allocFrame st (some lambdaEnv) with
    | (st1, callFrame) =>
      match bindParams fuel st1 callerEnv callFrame params argExprs with
      | .error e => .error e
      | .ok st2 => eval fuel st2 callFrame body

termination_by structural fuel => fuel

/-- The `zip(...).for_each(...)` of `eval_lambda`: arguments are evaluated in
the caller's environment and defined into the parameter frame; the zip stops
at the shorter of the two lists (extra arguments stay unevaluated, missing
parameters stay unbound). -/
def bindParams : Nat → Store → Nat → Nat → List String → List SExpr → Except RtErr Store
  | 0, _, _, _, _, _ => .error .outOfFuel
  | fuel + 1, st, callerEnv, callFrame, p :: ps, e :: es =>
    match eval fuel st callerEnv e with
    | .error err => .error err
    | .ok (v, st') => bindParams fuel (envDefine st' callFrame p v) callerEnv callFrame ps es
  | _ + 1, st, _, _, _, _ => .ok st

termination_by structural fuel => fuel

/-- The lazy `map(eval).reduce(f)` of the arithmetic arms, after the first
element: evaluate the next argument, combine, continue.  (The `reduce` of a
one-element iterator is that element, so a single non-numeric argument is
returned as-is.) -/
def arithFold : Nat → Store → Nat → (SExpr → SExpr → Except RtErr SExpr) → SExpr →
    List SExpr → Except RtErr (SExpr × Store)
  | 0, _, _, _, _, _ => .error .outOfFuel
  | _ + 1, st, _, _, acc, [] => .ok (acc, st)
  | fuel + 1, st, env, f, acc, e :: rest =>
    match eval fuel st env e with
    | .error err => .error err
    | .ok (v, st') =>
      match f acc v with
      | .error err => .error err
      | .ok acc' => arithFold fuel st' env f acc' rest

termination_by structural fuel => fuel

/-- The comparison arms: evaluate the FIRST argument, then `all` over the
remaining ones (`compareAll`).  An empty argument list panics on `unwrap`. -/
def compareOp : Nat → Store → Nat → (SExpr → SExpr → Bool) → List SExpr →
    Except RtErr (SExpr × Store)
  | 0, _, _, _, _ => .error .outOfFuel
  | fuel + 1, st, env, cmp, args =>
    match args with
    | [] => .error unwrapPanic
    | a :: rest =>
      match eval fuel st env a with
      | .error e => .error e
      | .ok (first, st') =>
        match compareAll fuel st' env cmp first rest with
        | .error e => .error e
        | .ok (b, st'') => .ok (.bool b, st'')

termination_by structural fuel => fuel

/-- The lazy `all` of the comparison arms: each remaining argument is
evaluated and compared AGAINST THE FIRST argument (not against its
predecessor); on the first failing comparison the iteration stops and later
arguments are never evaluated. -/
def compareAll : Nat → Store → Nat → (SExpr → SExpr → Bool) → SExpr → List SExpr →
    Except RtErr (Bool × Store)
  | 0, _, _, _, _, _ => .error .outOfFuel
  | _ + 1, st, _, _, _, [] => .ok (true, st)
  | fuel + 1, st, env, cmp, first, a :: rest =>
    match eval fuel st env a with
    | .error e => .error e
    | .ok (v, st') =>
      if cmp first v then compareAll fuel st' env cmp first rest
      else .ok (false, st')

termination_by structural fuel => fuel

/-- The `map(eval).last()` of `Operation::Begin`: evaluate every form in
order, keep the last value. -/
def evalLast : Nat → Store → Nat → SExpr → List SExpr → Except RtErr (SExpr × Store)
  | 0, _, _, _, _ => .error .outOfFuel
  | fuel + 1, st, env, a, [] => eval fuel st env a
  | fuel + 1, st, env, a, b :: rest =>
    match eval fuel st env a with
    | .error e => .error e
    | .ok (_, st') => evalLast fuel st' env b rest

termination_by structural fuel => fuel

/-- The `for_each(eval)` of `Operation::Module`: evaluate every form for its
side effects, discard the values. -/
def evalDiscard : Nat → Store → Nat → List SExpr → Except RtErr Store
  | 0, _, _, _ => .error .outOfFuel
  | _ + 1, st, _, [] => .ok st
  | fuel + 1, st, env, a :: rest =>
    match eval fuel st env a with
    | .error e => .error e
    | .ok (_, st') => evalDiscard fuel st' env rest

termination_by structural fuel => fuel

/-- The `map(eval).rfold(Nil, cons)` of `Operation::List`: `rfold` pulls the
lazy iterator from the BACK, so arguments are evaluated right-to-left while
the resulting cons chain preserves left-to-right order. -/
def evalListR : Nat → Store → Nat → List SExpr → Except RtErr (SExpr × Store)
  | 0, _, _, _ => .error .outOfFuel
  | _ + 1, st, _, [] => .ok (.nil, st)
  | fuel + 1, st, env, a :: rest =>
    match evalListR fuel st env rest with
    | .error e => .error e
    | .ok (tl, st') =>
      match eval fuel st' env a with
      | .error e => .error e
      | .ok (h, st'') => .ok (.cons h tl, st'')

termination_by structural fuel => fuel

/-- The `find_map` of `Operation::Cond`: each clause must be an expression;
its element 0 is the predicate (indexing panics when absent), a true
predicate evaluates element 1, a false one moves on; an exhausted clause
list panics on `unwrap`. -/
def condLoop : Nat → Store → Nat → List SExpr → Except RtErr (SExpr × Store)
  | 0, _, _, _ => .error .outOfFuel
  | _ + 1, _, _, [] => .error unwrapPanic
  | fuel + 1, st, env, c :: rest =>
    match c with
    | .expression vals =>
      match vals with
      | [] => .error (.panicked "index out of bounds")
      | p :: vtail =>
        match eval fuel st env p with
        | .error e => .error e
        | .ok (pv, st') =>
          match pv with
          | .bool true =>
            match vtail with
            | r :: _ => eval fuel st' env r
            | [] => .error (.panicked "index out of bounds")
          | .bool false => condLoop fuel st' env rest
          | _ => .error (.panicked "predicate must evaluate to boolean")
    | _ => .error (.panicked "Invalid args to cond")

termination_by structural fuel => fuel

end

/-- Ample fuel for every claim program (each nested evaluation step spends
one unit; the deepest claim program nests ~15 levels). -/
def evalFuel : Nat := 1000

/-- Evaluate one top-level form in the global environment (frame 0), as
`eval_str` does after parsing. -/
def evalTop (st : Store) (e : SExpr) : Except RtErr (SExpr × Store) :=
  eval evalFuel st 0 e

/-- Run a sequence of top-level forms against one shared global environment
(the REPL/test harness pattern of `main.rs`), collecting each form's value. -/
def runAll (st : Store) : List SExpr → Except RtErr (List SExpr × Store)
  | [] => .ok ([], st)
  | p :: ps =>
    match evalTop st p with
    | .error e => .error e
    | .ok (v, st') =>
      match runAll st' ps with
      | .error e => .error e
      | .ok (vs, st'') => .ok (v :: vs, st'')

/-- The values only. -/
def runVals (st : Store) (ps : List SExpr) : Except RtErr (List SExpr) :=
  (runAll st ps).map (·.1)

/-! ## Claim programs

The syntax trees the claims evaluate, written as the external parser
(`parse.rs` / `tokenize.rs`) produces them: reserved words become
`Operation` tags, numeric literals with a decimal point become `float`s. -/

/-- `(define make-account (lambda (balance) (lambda (amt) (begin (set! balance (+ balance amt)) balance))))` -/
def mkAccountProg : SExpr :=
  .expression [.operation .define, .symbol "make-account",
    .expression [.operation .lambda, .expression [.symbol "balance"],
      .expression [.operation .lambda, .expression [.symbol "amt"],
        .expression [.operation .begin,
          .expression [.operation .set, .symbol "balance",
            .expression [.operation .add, .symbol "balance", .symbol "amt"]],
          .symbol "balance"]]]]

/-- `(define account (make-account 100.00))` -/
def defAccountProg : SExpr :=
  .expression [.operation .define, .symbol "account",
    .expression [.symbol "make-account", .float ⟨100, 1⟩]]

/-- `(account -20.00)` -/
def callAccountProg : SExpr :=
  .expression [.symbol "account", .float ⟨-20, 1⟩]

/-- `(let ((a 5) (b (+ 5 a))) (+ a b))` -/
def letProg : SExpr :=
  .expression [.operation .letOp,
    .expression [
      .expression [.symbol "a", .int 5],
      .expression [.symbol "b", .expression [.operation .add, .int 5, .symbol "a"]]],
    .expression [.operation .add, .symbol "a", .symbol "b"]]

/-- `(set! x 1)` with `x` undefined everywhere. -/
def setUndefinedProg : SExpr :=
  .expression [.operation .set, .symbol "x", .int 1]

/-- `(pow 2 10)` -/
def powProg : SExpr := .expression [.operation .pow, .int 2, .int 10]

/-- `(pow 2 -1)` -/
def powNegProg : SExpr := .expression [.operation .pow, .int 2, .int (-1)]

/-- `(begin (define a 5) (+ a 1))` -/
def beginProg : SExpr :=
  .expression [.operation .begin,
    .expression [.operation .define, .symbol "a", .int 5],
    .expression [.operation .add, .symbol "a", .int 1]]

/-- `(begin)` -/
def emptyBeginProg : SExpr := .expression [.operation .begin]

/-- A chained `<` program over integer literals. -/
def ltProg (xs : List Int) : SExpr :=
  .expression (.operation .smaller :: xs.map SExpr.int)

/-- The five comparison operations of the claim set. -/
def comparisonOps : List Operation :=
  [.eq, .smaller, .greater, .smallerOrEqual, .greaterOrEqual]

/-- The `SymbolicExpression` kinds that `eval` returns unchanged (everything
except symbols, which are looked up, and expressions, which dispatch). -/
def selfEvaluating : SExpr → Bool
  | .symbol _ => false
  | .expression _ => false
  | _ => true

/-- The environment after `define a 1` in the root frame F (index 0), an
`add_frame` push (child frame, index 1), and `define a 2` in the child. -/
def shadowStore : Store :=
  envDefine (allocFrame (envDefine st0 0 "a" (.int 1)) (some 0)).1 1 "a" (.int 2)

/-- The integer relation each comparison operation's closure computes on two
`Int` arguments (used to state the general comparison theorem). -/
def intRelOf : Operation → Int → Int → Bool
  | .eq => fun a b => decide (a = b)
  | .smaller => fun a b => decide (a < b)
  | .greater => fun a b => decide (b < a)
  | .smallerOrEqual => fun a b => decide (a ≤ b)
  | .greaterOrEqual => fun a b => decide (b ≤ a)
  | _ => fun _ _ => false

/-! ## Helper lemmas -/

/-- On integer-literal arguments, the comparison loop computes "the relation
holds between the FIRST argument and EVERY remaining argument" (given enough
fuel: one unit per remaining argument plus one), parametrically in the
comparison closure `cmp` and the integer relation `f` it computes. -/
theorem compareAll_int (cmp : SExpr → SExpr → Bool) (f : Int → Int → Bool)
    (hcmp : ∀ a b : Int, cmp (.int a) (.int b) = f a b) (x : Int) :
    ∀ (ys : List Int) (g : Nat) (st : Store) (env : Nat), ys.length + 1 ≤ g →
      compareAll g st env cmp (.int x) (ys.map SExpr.int) =
        .ok (ys.all fun y => f x y, st) := by
  intro ys
  induction ys with
  | nil =>
    intro g st env hg
    match g, hg with
    | g + 1, _ => rfl
  | cons y t ih =>
    intro g st env hg
    match g, hg with
    | g + 1, hg =>
      have hg1 : t.length + 1 ≤ g := by simpa using hg
      match g, hg1 with
      | g + 1, hg1 =>
        show compareAll (g + 1 + 1) st env cmp (.int x) (.int y :: t.map SExpr.int) = _
        by_cases h : f x y = true
        · simp only [compareAll, eval, hcmp, h]
          rw [if_pos trivial, ih (g + 1) st env hg1]
          simp [h]
        · have hf : f x y = false := by revert h; cases f x y <;> simp
          simp only [compareAll, eval, hcmp]
          rw [if_neg h]
          simp [hf]

/-! ## Claims -/

/-- Claim C1: closure mutation is shared, not copied.  After evaluating the
`make-account` definition and `(define account (make-account 100.00))`, the
first evaluation of `(account -20.00)` returns `Float(80.0)` and a second
identical evaluation returns `Float(60.0)`: each application sees the
mutation the previous one performed on `balance` through the shared captured
frame. -/
theorem c1_account_closure_mutation :
    runVals st0 [mkAccountProg, defAccountProg, callAccountProg, callAccountProg] =
      .ok [.nil, .nil, .float ⟨80, 1⟩, .float ⟨60, 1⟩] := rfl

/-- Claim C2, counterexample: the claim predicts that `(< 1 3 2)` evaluates
to `Bool(false)` (adjacent-pair chaining); the code compares the FIRST
argument against every other argument, so it evaluates to `Bool(true)`. -/
theorem c2_not_adjacent_pairs_counterexample :
    runVals st0 [ltProg [1, 3, 2]] = .ok [.bool true] ∧
    runVals st0 [ltProg [1, 3, 2]] ≠ .ok [.bool false] := by
  refine ⟨rfl, fun h => ?_⟩
  have h1 : (Except.ok [SExpr.bool true] : Except RtErr (List SExpr)) =
      Except.ok [SExpr.bool false] :=
    (rfl : runVals st0 [ltProg [1, 3, 2]] = .ok [.bool true]).symm.trans h
  injection h1 with h2
  injection h2 with h3 h4
  injection h3 with h5
  exact Bool.noConfusion h5

/-- Claim C2, amended: every comparison operation (`=`, `<`, `<=`, `>`, `>=`)
applied to integer arguments is `Bool(true)` exactly when the relation holds
between the FIRST argument and every other argument in turn
(first-versus-rest, not adjacent pairs); in particular both `(< 1 2 3)` and
`(< 1 3 2)` evaluate to `Bool(true)`, while `(< 2 1 3)` evaluates to
`Bool(false)`. -/
theorem c2_first_vs_rest_comparison :
    runVals st0 [ltProg [1, 2, 3]] = .ok [.bool true] ∧
    runVals st0 [ltProg [1, 3, 2]] = .ok [.bool true] ∧
    runVals st0 [ltProg [2, 1, 3]] = .ok [.bool false] ∧
    ∀ (op : Operation), op ∈ comparisonOps →
      ∀ (x : Int) (ys : List Int) (fuel : Nat), ys.length + 5 ≤ fuel →
        eval fuel st0 0 (.expression (.operation op :: (x :: ys).map SExpr.int)) =
          .ok (.bool (ys.all fun y => intRelOf op x y), st0) := by
  refine ⟨rfl, rfl, rfl, ?_⟩
  intro op hop x ys fuel hf
  obtain ⟨k, hk, rfl⟩ : ∃ k, ys.length ≤ k ∧ fuel = k + 1 + 1 + 1 + 1 + 1 :=
    ⟨fuel - 5, by omega, by omega⟩
  fin_cases hop <;>
    (simp only [eval, evalExpression, evalOperation, compareOp, List.map_cons]
     rw [compareAll_int _ _ (fun a b => rfl) x ys (k + 1) st0 0 (by omega)]
     rfl)

/-- Claim C2, witness for the general part of the amended theorem, at
`op` = `<`, `x = 1`, `ys = [3, 2]`, `fuel = 10`. -/
theorem c2_first_vs_rest_comparison_witness :
    eval 10 st0 0 (ltProg [1, 3, 2]) = .ok (.bool true, st0) :=
  c2_first_vs_rest_comparison.2.2.2 .smaller (by decide) 1 [3, 2] 10 (by decide)

/-- Claim C3: `parse.rs` reserves `let` and produces `Operation::Let`, but the
`match` in `eval_operation` (eval.rs) has no `Let` arm — the match is
non-exhaustive, so the module does not even compile, and nothing evaluates
`(let ((a 5) (b (+ 5 a))) (+ a b))` to `Int(15)`.  In the model the `Let`
dispatch is the distinguished `unhandledOp` outcome. -/
theorem c3_let_dispatch_unimplemented :
    evalTop st0 letProg = .error .unhandledOp := rfl

/-- Claim C4, counterexample: the claim predicts that `(set! x 1)` with `x`
undefined fails with a `VariableNotFound` error returned to the caller; the
code drops the `Result` of `env.set_symbol`, so evaluation succeeds with
`Nil` (and the store is unchanged — no binding is created). -/
theorem c4_set_error_swallowed_counterexample :
    evalTop st0 setUndefinedProg = .ok (.nil, st0) := rfl

/-- Claim C4, amended: `env.set_symbol` itself returns `VariableNotFound`
when the name is undefined anywhere in the chain, but `eval_operation`
discards that `Result` and yields `Nil` with no binding created; when the
name is defined, `set!` overwrites the binding in the nearest frame defining
it (here: the root frame, reached from inside a `begin` frame) and yields
`Nil`. -/
theorem c4_set_semantics :
    envSetSymbol st0 0 "x" (.int 1) = .error (.variableNotFound "x") ∧
    evalTop st0 setUndefinedProg = .ok (.nil, st0) ∧
    runVals st0 [
      .expression [.operation .define, .symbol "x", .int 0],
      .expression [.operation .begin,
        .expression [.operation .set, .symbol "x", .int 1],
        .symbol "x"],
      .symbol "x"] = .ok [.nil, .int 1, .int 1] :=
  ⟨rfl, rfl, rfl⟩

/-- Claim C5, counterexample: the claim predicts that evaluating a lone
unbound symbol returns a `VariableNotFound` error as the `Result` of `eval`
without crashing; the code calls `.expect(...)` on `Env::find_symbol`'s
`Result`, so evaluation PANICS (process abort), modelled by the `panicked`
outcome. -/
theorem c5_unbound_symbol_counterexample :
    evalTop st0 (.symbol "y") = .error (.panicked "could not find symbol y") := rfl

/-- Claim C5, amended: for every symbol unbound in the whole chain,
`Env::find_symbol` produces the `VariableNotFound` error, but `eval` unwraps
it with `expect`, so the evaluation panics with "could not find symbol ..."
(aborting the process) instead of returning the error to the caller. -/
theorem c5_unbound_symbol_panics (fuel : Nat) (st : Store) (env : Nat) (name : String)
    (h : envFindSymbol st env name = .error (.variableNotFound name)) :
    eval (fuel + 1) st env (.symbol name) =
      .error (.panicked ("could not find symbol " ++ name)) := by
  simp only [eval]
  rw [h]

/-- Claim C5, witness: the amended theorem at the unbound name `y` in the
fresh global environment. -/
theorem c5_unbound_symbol_panics_witness :
    eval 1 st0 0 (.symbol "y") = .error (.panicked ("could not find symbol " ++ "y")) :=
  c5_unbound_symbol_panics 0 st0 0 "y" rfl

/-- Claim C6: `define` inserts or overwrites a binding in the current frame
only, leaving every other frame untouched (first conjunct: the store at any
other index is unchanged); in the shadowing scenario — `define a 1` in root
frame F, push a child frame, `define a 2` there — lookup of `a` from the
child (index 1) yields 2 and lookup from F (index 0, the handle after
`pop_frame`) yields 1. -/
theorem c6_define_shadows_current_frame_only :
    (∀ (st : Store) (i : Nat) (n : String) (v : SExpr) (j : Nat), j ≠ i →
      (envDefine st i n v)[j]? = st[j]?) ∧
    envFindSymbol shadowStore 1 "a" = .ok (.int 2) ∧
    envFindSymbol shadowStore 0 "a" = .ok (.int 1) := by
  refine ⟨?_, rfl, rfl⟩
  intro st i n v j hj
  cases h : st[i]? with
  | none => simp [envDefine, h]
  | some fr =>
    simp only [envDefine, h]
    exact List.getElem?_set_ne (Ne.symm hj)

/-- Claim C6, witness for the frame-preservation part: defining `a` in frame
0 of the fresh store leaves the (absent) frame 1 unchanged. -/
theorem c6_define_shadows_current_frame_only_witness :
    (envDefine st0 0 "a" SExpr.nil)[1]? = st0[1]? :=
  c6_define_shadows_current_frame_only.1 st0 0 "a" SExpr.nil 1 (by decide)

/-- Claim C7, counterexample: the claim predicts `(pow 2 -1)` evaluates to
`Float(0.5)`; the code matches `(Int, Int)` and computes
`first.pow(second as u32)`, so the exponent `-1` wraps to `4294967295` and
the debug-checked multiplication overflows `i128`: a panic, not a `Float`. -/
theorem c7_pow_negative_exponent_counterexample :
    runVals st0 [powNegProg] = .error (.panicked "attempt to multiply with overflow") ∧
    runVals st0 [powNegProg] ≠ .ok [.float ⟨1, 2⟩] := by
  refine ⟨rfl, fun h => ?_⟩
  exact Except.noConfusion
    ((rfl : runVals st0 [powNegProg] =
        .error (.panicked "attempt to multiply with overflow")).symm.trans h)

/-- Claim C7, amended: `pow` on two `Int` operands computes
`first ^ (second as u32)` as an `Int` — for a non-negative exponent that
fits `u32` this is integer exponentiation, so `(pow 2 10)` evaluates to
`Int(1024)`; a NEGATIVE exponent does not produce a `Float`: it wraps to a
huge unsigned exponent and the debug build panics with a multiplication
overflow, so `(pow 2 -1)` aborts. -/
theorem c7_pow_semantics :
    runVals st0 [powProg] = .ok [.int 1024] ∧
    runVals st0 [powNegProg] = .error (.panicked "attempt to multiply with overflow") :=
  ⟨rfl, rfl⟩

/-- Claim C8: division of two `Int` operands always yields a `Float` — for
all integers `a`, `b`, `(/ a b)` evaluates to the `Float` obtained by
widening both operands to `f64` and dividing; in particular `(/ 4 2)`
evaluates to `Float(2.0)`, not `Int(2)`. -/
theorem c8_int_division_always_float :
    (∀ (a b : Int), evalTop st0 (.expression [.operation .divide, .int a, .int b]) =
        .ok (.float (f64Div (i128ToF64 a) (i128ToF64 b)), st0)) ∧
    evalTop st0 (.expression [.operation .divide, .int 4, .int 2]) =
      .ok (.float ⟨2, 1⟩, st0) :=
  ⟨fun _ _ => rfl, rfl⟩

/-- Claim C9, counterexample: the claim predicts `(begin)` with an empty body
yields `Nil`; the code computes `iterator.last().unwrap()`, and `last()` of
an empty iterator is `None`, so the evaluation panics. -/
theorem c9_empty_begin_counterexample :
    runVals st0 [emptyBeginProg] = .error unwrapPanic ∧
    runVals st0 [emptyBeginProg] ≠ .ok [.nil] := by
  refine ⟨rfl, fun h => ?_⟩
  exact Except.noConfusion
    ((rfl : runVals st0 [emptyBeginProg] = .error unwrapPanic).symm.trans h)

/-- Claim C9, amended: `(begin form...)` pushes a new frame, evaluates each
remaining form in order, pops the frame, and yields the value of the last
form — `(begin (define a 5) (+ a 1))` yields `Int(6)`, and the definition of
`a` is gone once the frame is popped (a following lone `a` panics as
unbound); but `(begin)` with an EMPTY body panics on `unwrap` instead of
yielding `Nil`. -/
theorem c9_begin_semantics :
    runVals st0 [beginProg] = .ok [.int 6] ∧
    runVals st0 [beginProg, .symbol "a"] = .error (.panicked "could not find symbol a") ∧
    runVals st0 [emptyBeginProg] = .error unwrapPanic :=
  ⟨rfl, rfl, rfl⟩

/-- Claim C10 (implicit): a comparison operation applied to exactly one
evaluated argument yields `Bool(true)` for every value of every kind
(strings, booleans, lambdas, cons pairs, ...): the first argument is
consumed before the pairwise `all`, which is vacuously true on no remaining
arguments. -/
theorem c10_single_argument_comparison_true (op : Operation) (v : SExpr)
    (hop : op ∈ comparisonOps) (hv : selfEvaluating v = true) :
    evalTop st0 (.expression [.operation op, v]) = .ok (.bool true, st0) := by
  fin_cases hop <;> cases v <;> first | rfl | simp [selfEvaluating] at hv

/-- Claim C10, witness: `(< "hi")` evaluates to `Bool(true)`. -/
theorem c10_single_argument_comparison_true_witness :
    evalTop st0 (.expression [.operation .smaller, .str "hi"]) = .ok (.bool true, st0) :=
  c10_single_argument_comparison_true .smaller (.str "hi") (by decide) rfl
